import Mathlib

/-!
Shallow embedding of the Samudra Shakti disaster-verification and
crowd-evacuation engine (FastAPI backend, `src/backend/app`).

Conventions of the embedding:
* Machine floats of the source are modelled as exact rationals (`ℚ`).
* Timestamps are rationals measured in minutes; `datetime.utcnow()` becomes an
  explicit `now` parameter of each operation.
* The trigonometric geospatial primitives (`AlertService.calculate_distance`,
  `calculate_bearing`, and the circular mean of headings) are taken as
  uninterpreted function parameters (`dist`, `bearingF`, `avgDir`): the control
  flow of the embedded routes only compares their outputs with constants, and
  every theorem below is proved for an arbitrary such function.
* Database sessions become explicit state records.  Every `HTTPException` in
  `verify_disaster` is raised before any session mutation, so the error branch
  of the embedded function carries no state; the run semantics keeps the
  pre-state on errors, exactly as an aborted transaction does.
* Notification dispatch is an external side channel; its occurrence is
  recorded (the `emergency_triggered` flag, `notifications_sent` counter)
  without modelling delivery.
-/

namespace Samudra

/-- Status of a disaster report, from `models.py` (`DisasterStatus`). -/
inductive DisasterStatus
  | pending
  | verified
  | false_alarm
  | resolved
deriving DecidableEq, Repr

/-- Modelled from the spec: the snapshot's `models.py` predates the
`DisasterAlertStatus` enum imported by `routes/disasters.py`; spec §3 gives
`alert_status ∈ {INITIAL, EMERGENCY_ACTIVE, RESOLVED}`. -/
inductive DisasterAlertStatus
  | initial
  | emergency_active
  | resolved
deriving DecidableEq, Repr

/-- A row of the `users` table: only the columns touched by
`verify_disaster` (`id`, `trust_score`, default 100). -/
structure UserRow where
  id : ℕ
  trust_score : ℚ
deriving DecidableEq, Repr

/-- A row of `verification_responses` for one disaster (`models.py`,
`VerificationResponse`); the fixed `disaster_report_id` of the single
modelled disaster is left implicit. -/
structure VerificationResponseRow where
  user_id : ℕ
  is_confirmed : Bool
  latitude : Option ℚ
  longitude : Option ℚ
deriving DecidableEq, Repr

/-- A row of `trust_scores` (`models.py`, `TrustScore`): the audit entry
written when a false-alarm penalty is applied. -/
structure TrustScoreRow where
  user_id : ℕ
  previous_score : ℚ
  new_score : ℚ
  change_reason : String
deriving DecidableEq, Repr

/-- The columns of a `disaster_reports` row read or written by
`verify_disaster`.  `alert_status`, `emergency_confirmation_threshold` are
modelled from the spec (§3) since the snapshot's `models.py` predates them. -/
structure DisasterReport where
  reporter_id : ℕ
  latitude : ℚ
  longitude : ℚ
  verification_count_yes : ℕ
  verification_count_no : ℕ
  status : DisasterStatus
  alert_status : DisasterAlertStatus
  emergency_confirmation_threshold : ℕ
  created_at : ℚ
deriving DecidableEq, Repr

/-- The database state visible to `POST /api/disasters/{id}/verify`,
restricted to one disaster. -/
structure VerifyState where
  disaster : DisasterReport
  users : List UserRow
  responses : List VerificationResponseRow
  trust_events : List TrustScoreRow
deriving DecidableEq, Repr

/-- Request body `VerificationCreate` (`schemas.py`). -/
structure VerificationCreate where
  is_confirmed : Bool
  latitude : Option ℚ
  longitude : Option ℚ
deriving DecidableEq, Repr

/-- The fields of `VerificationWithEmergencyResponse` that the embedded
operation computes (identifiers and timestamps are echoes of the input). -/
structure VerifyResult where
  emergency_triggered : Bool
  total_confirmations : ℕ
deriving DecidableEq, Repr

/-- The `HTTPException` reasons of `verify_disaster`, in source order. -/
inductive VerifyError
  | alreadyDecided
  | staleReport
  | tooFar
  | alreadyVerified
deriving DecidableEq, Repr

/-- Python truthiness of an optional float: `None` and `0.0` are falsy.
This is the guard `if verification_data.latitude and verification_data.longitude`
of `routes/disasters.py:244`. -/
def optTruthy : Option ℚ → Bool
  | none => false
  | some x => decide (x ≠ 0)

/-- Mutating the first `users` row matching an id, as
`db.query(User).filter(User.id == ...).first()` followed by an attribute
assignment does. -/
def updateTrust (uid : ℕ) (new_score : ℚ) : List UserRow → List UserRow
  | [] => []
  | u :: rest =>
    if u.id == uid then ⟨u.id, new_score⟩ :: rest else u :: updateTrust uid new_score rest

/-- The yes-counter after the increment of `routes/disasters.py:279-282`. -/
def postYes (vd : VerificationCreate) (s : VerifyState) : ℕ :=
  s.disaster.verification_count_yes + (if vd.is_confirmed then 1 else 0)

/-- The no-counter after the increment of `routes/disasters.py:279-282`. -/
def postNo (vd : VerificationCreate) (s : VerifyState) : ℕ :=
  s.disaster.verification_count_no + (if vd.is_confirmed then 0 else 1)

/-- The majority-of-three decision block (`routes/disasters.py:285-308`),
evaluated on the incremented counters: the disaster status it leaves, the
users table after any trust penalty, and the trust ledger after any logged
`TrustScore` row. -/
def decisionTriple (vd : VerificationCreate) (s : VerifyState) :
    DisasterStatus × List UserRow × List TrustScoreRow :=
  let disaster := s.disaster
  let yes := postYes vd s
  let no := postNo vd s
  if 3 ≤ yes + no then
    if 2 ≤ yes then (DisasterStatus.verified, s.users, s.trust_events)
    else if 2 ≤ no then
      match s.users.find? (fun u => u.id == disaster.reporter_id) with
      | some reporter =>
        let old_score := reporter.trust_score
        let new_score := max 0 (reporter.trust_score - 10)
        (DisasterStatus.false_alarm,
          updateTrust disaster.reporter_id new_score s.users,
          s.trust_events ++ [⟨reporter.id, old_score, new_score, "False alarm report"⟩])
      | none => (DisasterStatus.false_alarm, s.users, s.trust_events)
    else (disaster.status, s.users, s.trust_events)
  else (disaster.status, s.users, s.trust_events)

/-- The emergency-escalation guard (`routes/disasters.py:311-312`):
incremented yes-count has reached the threshold and `alert_status` is not
already `EMERGENCY_ACTIVE`. -/
def escalates (vd : VerificationCreate) (s : VerifyState) : Bool :=
  decide (s.disaster.emergency_confirmation_threshold ≤ postYes vd s) &&
    decide (s.disaster.alert_status ≠ DisasterAlertStatus.emergency_active)

/-- The acceptance branch of `verify_disaster` (`routes/disasters.py:267-372`):
persist the response row, increment the matching counter, apply the
majority-of-three decision, then the emergency escalation (which forces
`status = VERIFIED` and flips `alert_status`). -/
def acceptedUpdate (user_id : ℕ) (vd : VerificationCreate) (s : VerifyState) :
    VerifyState × VerifyResult :=
  let disaster := s.disaster
  let verification : VerificationResponseRow :=
    ⟨user_id, vd.is_confirmed, vd.latitude, vd.longitude⟩
  let yes := postYes vd s
  let no := postNo vd s
  let decided := decisionTriple vd s
  let alert2 :=
    if escalates vd s then DisasterAlertStatus.emergency_active else disaster.alert_status
  let status2 := if escalates vd s then DisasterStatus.verified else decided.1
  let disaster2 : DisasterReport :=
    ⟨disaster.reporter_id, disaster.latitude, disaster.longitude, yes, no, status2, alert2,
      disaster.emergency_confirmation_threshold, disaster.created_at⟩
  (⟨disaster2, decided.2.1, s.responses ++ [verification], decided.2.2⟩,
    ⟨escalates vd s, yes⟩)

/-- The distance eligibility guard of `routes/disasters.py:243-253`: a
supplied (truthy, see `optTruthy`) location farther than 10 km rejects. -/
def distanceRejects (dist : ℚ → ℚ → ℚ → ℚ → ℚ) (vd : VerificationCreate)
    (s : VerifyState) : Bool :=
  optTruthy vd.latitude && optTruthy vd.longitude &&
    decide (dist (vd.latitude.getD 0) (vd.longitude.getD 0)
      s.disaster.latitude s.disaster.longitude > 10)

/-- Embedding of `verify_disaster` (`routes/disasters.py:206-372`) for one
disaster.  `dist` stands for `AlertService.calculate_distance`.  The checks
appear in source order: status, report age (strictly more than 30 minutes is
stale), distance of a truthy supplied location, duplicate response.  On
acceptance `acceptedUpdate` applies all mutations. -/
def verify_disaster (dist : ℚ → ℚ → ℚ → ℚ → ℚ) (now : ℚ) (user_id : ℕ)
    (verification_data : VerificationCreate) (s : VerifyState) :
    Except VerifyError (VerifyState × VerifyResult) :=
  if s.disaster.status ≠ DisasterStatus.pending then
    Except.error VerifyError.alreadyDecided
  else if now - s.disaster.created_at > 30 then
    Except.error VerifyError.staleReport
  else if distanceRejects dist verification_data s then
    Except.error VerifyError.tooFar
  else if s.responses.any (fun r => r.user_id == user_id) then
    Except.error VerifyError.alreadyVerified
  else
    Except.ok (acceptedUpdate user_id verification_data s)

/-- One call of the verify endpoint: timestamp, authenticated user, body. -/
structure VerifyOp where
  now : ℚ
  user_id : ℕ
  data : VerificationCreate
deriving DecidableEq, Repr

/-- State after one call: a rejected call leaves the database untouched
(every raise precedes every mutation in the source). -/
def verifyStep (dist : ℚ → ℚ → ℚ → ℚ → ℚ) (s : VerifyState) (op : VerifyOp) : VerifyState :=
  match verify_disaster dist op.now op.user_id op.data s with
  | Except.ok (s2, _) => s2
  | Except.error _ => s

/-- State after a sequence of verify calls. -/
def verifyRun (dist : ℚ → ℚ → ℚ → ℚ → ℚ) (s : VerifyState) (ops : List VerifyOp) : VerifyState :=
  ops.foldl (verifyStep dist) s

/-- Whether one call reports `emergency_triggered = true`. -/
def stepTriggered (dist : ℚ → ℚ → ℚ → ℚ → ℚ) (s : VerifyState) (op : VerifyOp) : Bool :=
  match verify_disaster dist op.now op.user_id op.data s with
  | Except.ok (_, r) => r.emergency_triggered
  | Except.error _ => false

/-- Number of calls of a run whose response reports `emergency_triggered`. -/
def runTriggerCount (dist : ℚ → ℚ → ℚ → ℚ → ℚ) : VerifyState → List VerifyOp → ℕ
  | _, [] => 0
  | s, op :: rest =>
    (if stepTriggered dist s op then 1 else 0) + runTriggerCount dist (verifyStep dist s op) rest

/-- Number of steps of a run at which `alert_status` transitions into
`EMERGENCY_ACTIVE`. -/
def runEscalationCount (dist : ℚ → ℚ → ℚ → ℚ → ℚ) : VerifyState → List VerifyOp → ℕ
  | _, [] => 0
  | s, op :: rest =>
    (if s.disaster.alert_status ≠ DisasterAlertStatus.emergency_active ∧
        (verifyStep dist s op).disaster.alert_status = DisasterAlertStatus.emergency_active
      then 1 else 0) +
      runEscalationCount dist (verifyStep dist s op) rest

/-- A verify call succeeds exactly when all four eligibility checks pass, and
then returns precisely the accepted update. -/
theorem verify_ok_iff (dist : ℚ → ℚ → ℚ → ℚ → ℚ) (now : ℚ) (uid : ℕ)
    (vd : VerificationCreate) (s : VerifyState) (p : VerifyState × VerifyResult) :
    verify_disaster dist now uid vd s = Except.ok p ↔
      s.disaster.status = DisasterStatus.pending ∧
      ¬ (now - s.disaster.created_at > 30) ∧
      distanceRejects dist vd s = false ∧
      s.responses.any (fun r => r.user_id == uid) = false ∧
      p = acceptedUpdate uid vd s := by
  unfold verify_disaster
  split
  next h1 => simp [h1]
  next h1 =>
    rw [not_not] at h1
    split
    next h2 => simp [h2]
    next h2 =>
      split
      next h3 => simp [h3]
      next h3 =>
        rw [Bool.not_eq_true] at h3
        split
        next h4 => simp [h4]
        next h4 =>
          rw [Bool.not_eq_true] at h4
          simp only [Except.ok.injEq]
          constructor
          · intro h
            exact ⟨h1, h2, h3, h4, h.symm⟩
          · intro h
            exact h.2.2.2.2.symm

/-- A disaster no longer `PENDING` rejects every verification submission
with the already-decided error. -/
theorem verify_not_pending (dist : ℚ → ℚ → ℚ → ℚ → ℚ) (now : ℚ) (uid : ℕ)
    (vd : VerificationCreate) (s : VerifyState)
    (h : s.disaster.status ≠ DisasterStatus.pending) :
    verify_disaster dist now uid vd s = Except.error VerifyError.alreadyDecided := by
  unfold verify_disaster
  rw [if_pos h]

/-- A pending report strictly older than 30 minutes rejects with the stale
error. -/
theorem verify_stale (dist : ℚ → ℚ → ℚ → ℚ → ℚ) (now : ℚ) (uid : ℕ)
    (vd : VerificationCreate) (s : VerifyState)
    (h1 : s.disaster.status = DisasterStatus.pending)
    (h2 : now - s.disaster.created_at > 30) :
    verify_disaster dist now uid vd s = Except.error VerifyError.staleReport := by
  unfold verify_disaster
  rw [if_neg (not_not_intro h1), if_pos h2]

/-- A pending, fresh submission whose truthy location is farther than 10 km
rejects with the distance error. -/
theorem verify_tooFar (dist : ℚ → ℚ → ℚ → ℚ → ℚ) (now : ℚ) (uid : ℕ)
    (vd : VerificationCreate) (s : VerifyState)
    (h1 : s.disaster.status = DisasterStatus.pending)
    (h2 : ¬ (now - s.disaster.created_at > 30))
    (h3 : distanceRejects dist vd s = true) :
    verify_disaster dist now uid vd s = Except.error VerifyError.tooFar := by
  unfold verify_disaster
  rw [if_neg (not_not_intro h1), if_neg h2, if_pos h3]

/-- A rejected call leaves the state unchanged. -/
theorem verifyStep_of_error (dist : ℚ → ℚ → ℚ → ℚ → ℚ) (s : VerifyState) (op : VerifyOp)
    (e : VerifyError) (h : verify_disaster dist op.now op.user_id op.data s = Except.error e) :
    verifyStep dist s op = s := by
  unfold verifyStep
  rw [h]

/-- An accepted call moves to the returned state. -/
theorem verifyStep_of_ok (dist : ℚ → ℚ → ℚ → ℚ → ℚ) (s : VerifyState) (op : VerifyOp)
    (s2 : VerifyState) (r : VerifyResult)
    (h : verify_disaster dist op.now op.user_id op.data s = Except.ok (s2, r)) :
    verifyStep dist s op = s2 := by
  unfold verifyStep
  rw [h]

theorem acceptedUpdate_responses (uid : ℕ) (vd : VerificationCreate) (s : VerifyState) :
    (acceptedUpdate uid vd s).1.responses =
      s.responses ++ [⟨uid, vd.is_confirmed, vd.latitude, vd.longitude⟩] := rfl

theorem acceptedUpdate_yes (uid : ℕ) (vd : VerificationCreate) (s : VerifyState) :
    (acceptedUpdate uid vd s).1.disaster.verification_count_yes = postYes vd s := rfl

theorem acceptedUpdate_no (uid : ℕ) (vd : VerificationCreate) (s : VerifyState) :
    (acceptedUpdate uid vd s).1.disaster.verification_count_no = postNo vd s := rfl

theorem acceptedUpdate_threshold (uid : ℕ) (vd : VerificationCreate) (s : VerifyState) :
    (acceptedUpdate uid vd s).1.disaster.emergency_confirmation_threshold =
      s.disaster.emergency_confirmation_threshold := rfl

theorem acceptedUpdate_alert (uid : ℕ) (vd : VerificationCreate) (s : VerifyState) :
    (acceptedUpdate uid vd s).1.disaster.alert_status =
      (if escalates vd s then DisasterAlertStatus.emergency_active
        else s.disaster.alert_status) := rfl

theorem acceptedUpdate_status (uid : ℕ) (vd : VerificationCreate) (s : VerifyState) :
    (acceptedUpdate uid vd s).1.disaster.status =
      (if escalates vd s then DisasterStatus.verified else (decisionTriple vd s).1) := rfl

theorem acceptedUpdate_users (uid : ℕ) (vd : VerificationCreate) (s : VerifyState) :
    (acceptedUpdate uid vd s).1.users = (decisionTriple vd s).2.1 := rfl

theorem acceptedUpdate_events (uid : ℕ) (vd : VerificationCreate) (s : VerifyState) :
    (acceptedUpdate uid vd s).1.trust_events = (decisionTriple vd s).2.2 := rfl

theorem acceptedUpdate_result (uid : ℕ) (vd : VerificationCreate) (s : VerifyState) :
    (acceptedUpdate uid vd s).2 = ⟨escalates vd s, postYes vd s⟩ := rfl

/-- Below quorum the decision block leaves status, users and ledger alone. -/
theorem decisionTriple_below (vd : VerificationCreate) (s : VerifyState)
    (h : postYes vd s + postNo vd s < 3) :
    decisionTriple vd s = (s.disaster.status, s.users, s.trust_events) := by
  unfold decisionTriple
  rw [if_neg (by omega)]

/-- At quorum with a yes-majority the decision block verifies the disaster. -/
theorem decisionTriple_verified (vd : VerificationCreate) (s : VerifyState)
    (h3 : 3 ≤ postYes vd s + postNo vd s) (h2 : 2 ≤ postYes vd s) :
    decisionTriple vd s = (DisasterStatus.verified, s.users, s.trust_events) := by
  unfold decisionTriple
  rw [if_pos h3, if_pos h2]

/-- At quorum with a no-majority and a present reporter the decision block
marks the false alarm, applies the floored −10 penalty and logs one ledger
row. -/
theorem decisionTriple_false_alarm (vd : VerificationCreate) (s : VerifyState)
    (reporter : UserRow)
    (h3 : 3 ≤ postYes vd s + postNo vd s) (hy : postYes vd s < 2) (hn : 2 ≤ postNo vd s)
    (hr : s.users.find? (fun u => u.id == s.disaster.reporter_id) = some reporter) :
    decisionTriple vd s =
      (DisasterStatus.false_alarm,
        updateTrust s.disaster.reporter_id (max 0 (reporter.trust_score - 10)) s.users,
        s.trust_events ++
          [⟨reporter.id, reporter.trust_score, max 0 (reporter.trust_score - 10),
            "False alarm report"⟩]) := by
  unfold decisionTriple
  rw [if_pos h3, if_neg (by omega), if_pos hn, hr]

/-- The escalation guard in propositional form. -/
theorem escalates_iff (vd : VerificationCreate) (s : VerifyState) :
    escalates vd s = true ↔
      s.disaster.emergency_confirmation_threshold ≤ postYes vd s ∧
        s.disaster.alert_status ≠ DisasterAlertStatus.emergency_active := by
  simp [escalates]

/-- At quorum with a no-majority but no matching reporter row the decision
block marks the false alarm and touches nothing else. -/
theorem decisionTriple_false_alarm_absent (vd : VerificationCreate) (s : VerifyState)
    (h3 : 3 ≤ postYes vd s + postNo vd s) (hy : postYes vd s < 2) (hn : 2 ≤ postNo vd s)
    (hr : s.users.find? (fun u => u.id == s.disaster.reporter_id) = none) :
    decisionTriple vd s = (DisasterStatus.false_alarm, s.users, s.trust_events) := by
  unfold decisionTriple
  rw [if_pos h3, if_neg (by omega), if_pos hn, hr]

/-- The decision block only ever leaves the status alone, verifies, or marks
a false alarm. -/
theorem decisionTriple_fst_cases (vd : VerificationCreate) (s : VerifyState) :
    (decisionTriple vd s).1 = s.disaster.status ∨
      (decisionTriple vd s).1 = DisasterStatus.verified ∨
      (decisionTriple vd s).1 = DisasterStatus.false_alarm := by
  by_cases h3 : 3 ≤ postYes vd s + postNo vd s
  · by_cases h2 : 2 ≤ postYes vd s
    · rw [decisionTriple_verified vd s h3 h2]
      simp
    · by_cases hn : 2 ≤ postNo vd s
      · cases hr : s.users.find? (fun u => u.id == s.disaster.reporter_id) with
        | some reporter =>
          rw [decisionTriple_false_alarm vd s reporter h3 (by omega) hn hr]
          simp
        | none =>
          rw [decisionTriple_false_alarm_absent vd s h3 (by omega) hn hr]
          simp
      · omega
  · rw [decisionTriple_below vd s (by omega)]
    simp

/-- At most one response row per user, stated over the single modelled
disaster: the user ids of the persisted rows are pairwise distinct. -/
def atMostOnePerUser (rows : List VerificationResponseRow) : Prop :=
  rows.Pairwise (fun a b => a.user_id ≠ b.user_id)

instance (rows : List VerificationResponseRow) : Decidable (atMostOnePerUser rows) := by
  unfold atMostOnePerUser
  infer_instance

/-! ### Concrete fixtures used by witnesses and counterexamples -/

/-- A degenerate distance function for concrete runs: everything 0 km
apart.  Theorems hold for an arbitrary `dist`; witnesses pick this one. -/
def dist0 : ℚ → ℚ → ℚ → ℚ → ℚ := fun _ _ _ _ => 0

/-- A yes vote without a supplied location. -/
def vdYes : VerificationCreate := ⟨true, none, none⟩

/-- A no vote without a supplied location. -/
def vdNo : VerificationCreate := ⟨false, none, none⟩

/-- Four users at the default trust score 100; user 1 is the reporter. -/
def users4 : List UserRow := [⟨1, 100⟩, ⟨2, 100⟩, ⟨3, 100⟩, ⟨4, 100⟩]

/-- A fresh pending disaster (created at time 0, quorum threshold 5)
reported by user 1 at (10, 20). -/
def pendingDisaster : DisasterReport :=
  ⟨1, 10, 20, 0, 0, DisasterStatus.pending, DisasterAlertStatus.initial, 5, 0⟩

/-- A fresh pending state with no responses yet. -/
def sFresh : VerifyState := ⟨pendingDisaster, users4, [], []⟩

/-- A disaster already decided `VERIFIED` (2 yes, 1 no). -/
def sDecided : VerifyState :=
  ⟨⟨1, 10, 20, 2, 1, DisasterStatus.verified, DisasterAlertStatus.initial, 5, 0⟩,
    users4, [⟨2, true, none, none⟩, ⟨3, true, none, none⟩, ⟨4, false, none, none⟩], []⟩

/-! ### C3 -/

/-- C3: For every disaster and every sequence of verify operations (for any
value of `emergency_confirmation_threshold`) the status only moves
one-directionally: a call on a non-PENDING disaster is rejected (with the
already-decided error) and leaves the state unchanged; an accepted call
starts from PENDING and never produces RESOLVED; a single step either keeps
the status or moves PENDING to VERIFIED/FALSE_ALARM; and no verify step ever
turns FALSE_ALARM into VERIFIED. -/
theorem C3_status_one_directional (dist : ℚ → ℚ → ℚ → ℚ → ℚ) (now : ℚ) (uid : ℕ)
    (vd : VerificationCreate) (s : VerifyState) :
    (s.disaster.status ≠ DisasterStatus.pending →
      verify_disaster dist now uid vd s = Except.error VerifyError.alreadyDecided ∧
      verifyStep dist s ⟨now, uid, vd⟩ = s) ∧
    (∀ s2 r, verify_disaster dist now uid vd s = Except.ok (s2, r) →
      s.disaster.status = DisasterStatus.pending ∧
      s2.disaster.status ≠ DisasterStatus.resolved) ∧
    ((verifyStep dist s ⟨now, uid, vd⟩).disaster.status = s.disaster.status ∨
      (s.disaster.status = DisasterStatus.pending ∧
        ((verifyStep dist s ⟨now, uid, vd⟩).disaster.status = DisasterStatus.verified ∨
          (verifyStep dist s ⟨now, uid, vd⟩).disaster.status = DisasterStatus.false_alarm))) ∧
    ¬ (s.disaster.status = DisasterStatus.false_alarm ∧
        (verifyStep dist s ⟨now, uid, vd⟩).disaster.status = DisasterStatus.verified) := by
  have hpost : ∀ s2 r, verify_disaster dist now uid vd s = Except.ok (s2, r) →
      s.disaster.status = DisasterStatus.pending ∧
      (s2.disaster.status = DisasterStatus.pending ∨
        s2.disaster.status = DisasterStatus.verified ∨
        s2.disaster.status = DisasterStatus.false_alarm) := by
    intro s2 r h
    rw [verify_ok_iff] at h
    obtain ⟨h1, -, -, -, hp⟩ := h
    refine ⟨h1, ?_⟩
    have hs2 : s2 = (acceptedUpdate uid vd s).1 := by rw [← hp]
    rw [hs2, acceptedUpdate_status]
    by_cases he : escalates vd s = true
    · rw [if_pos he]
      simp
    · rw [if_neg he]
      rcases decisionTriple_fst_cases vd s with h | h | h <;> rw [h] <;> simp [h1]
  refine ⟨?_, ?_, ?_, ?_⟩
  · intro h
    have he := verify_not_pending dist now uid vd s h
    exact ⟨he, verifyStep_of_error dist s ⟨now, uid, vd⟩ _ he⟩
  · intro s2 r h
    obtain ⟨h1, h2⟩ := hpost s2 r h
    refine ⟨h1, ?_⟩
    rcases h2 with h | h | h <;> simp [h]
  · cases hv : verify_disaster dist now uid vd s with
    | error e =>
      left
      rw [verifyStep_of_error dist s ⟨now, uid, vd⟩ e hv]
    | ok p =>
      obtain ⟨h1, h2⟩ := hpost p.1 p.2 (by rw [hv])
      rw [verifyStep_of_ok dist s ⟨now, uid, vd⟩ p.1 p.2 (by rw [hv])]
      rcases h2 with h | h | h
      · left; rw [h, h1]
      · right; exact ⟨h1, Or.inl h⟩
      · right; exact ⟨h1, Or.inr h⟩
  · rintro ⟨hfa, hv⟩
    have hne : s.disaster.status ≠ DisasterStatus.pending := by rw [hfa]; simp
    have he := verify_not_pending dist now uid vd s hne
    rw [verifyStep_of_error dist s ⟨now, uid, vd⟩ _ he, hfa] at hv
    exact absurd hv (by simp)

/-- Witness for C3: the already-decided state rejects and is unchanged, and
an accepted call on the fresh pending state starts from PENDING. -/
theorem C3_status_one_directional_witness :
    (verify_disaster dist0 0 4 vdYes sDecided = Except.error VerifyError.alreadyDecided ∧
      verifyStep dist0 sDecided ⟨0, 4, vdYes⟩ = sDecided) ∧
    (sFresh.disaster.status = DisasterStatus.pending ∧
      (acceptedUpdate 2 vdYes sFresh).1.disaster.status ≠ DisasterStatus.resolved) :=
  ⟨(C3_status_one_directional dist0 0 4 vdYes sDecided).1 (by decide),
    (C3_status_one_directional dist0 0 2 vdYes sFresh).2.1
      (acceptedUpdate 2 vdYes sFresh).1 (acceptedUpdate 2 vdYes sFresh).2
      (by
        rw [Prod.mk.eta]
        exact (verify_ok_iff dist0 0 2 vdYes sFresh (acceptedUpdate 2 vdYes sFresh)).2
          ⟨rfl, by norm_num [sFresh, pendingDisaster], rfl, rfl, rfl⟩)⟩

/-! ### C4 -/

/-- C4: at most one `VerificationResponse` per `(disaster, user)`: a
submission by a user who already has a persisted row is always rejected
(whatever the other checks say), a rejected call changes nothing, and the
pairwise-distinct-users invariant of the response table is preserved by
every step and every run. -/
theorem step_preserves_unique (dist : ℚ → ℚ → ℚ → ℚ → ℚ) (s : VerifyState) (op : VerifyOp)
    (hinv : atMostOnePerUser s.responses) :
    atMostOnePerUser (verifyStep dist s op).responses := by
  cases hv : verify_disaster dist op.now op.user_id op.data s with
  | error e =>
    rw [verifyStep_of_error dist s op e hv]
    exact hinv
  | ok p =>
    rw [verifyStep_of_ok dist s op p.1 p.2 (by rw [hv])]
    obtain ⟨-, -, -, hdup, hp⟩ := (verify_ok_iff dist op.now op.user_id op.data s p).1 hv
    have hre : p.1.responses = s.responses ++
        [⟨op.user_id, op.data.is_confirmed, op.data.latitude, op.data.longitude⟩] := by
      rw [hp]
      exact acceptedUpdate_responses op.user_id op.data s
    rw [hre]
    unfold atMostOnePerUser at hinv ⊢
    rw [List.pairwise_append]
    refine ⟨hinv, List.pairwise_singleton _ _, ?_⟩
    intro a ha b hb
    rw [List.mem_singleton] at hb
    rw [hb]
    simp only [List.any_eq_false, beq_iff_eq] at hdup
    exact hdup a ha

theorem run_preserves_unique (dist : ℚ → ℚ → ℚ → ℚ → ℚ) (ops : List VerifyOp) :
    ∀ s : VerifyState, atMostOnePerUser s.responses →
      atMostOnePerUser (verifyRun dist s ops).responses := by
  induction ops with
  | nil => intro s h; exact h
  | cons op rest ih =>
    intro s hinv
    have hrun : verifyRun dist s (op :: rest) = verifyRun dist (verifyStep dist s op) rest := by
      unfold verifyRun
      rw [List.foldl_cons]
    rw [hrun]
    exact ih (verifyStep dist s op) (step_preserves_unique dist s op hinv)

theorem C4_unique_per_user (dist : ℚ → ℚ → ℚ → ℚ → ℚ) (now : ℚ) (uid : ℕ)
    (vd : VerificationCreate) (s : VerifyState) :
    ((∃ row ∈ s.responses, row.user_id = uid) →
      ∃ e, verify_disaster dist now uid vd s = Except.error e) ∧
    (∀ e, verify_disaster dist now uid vd s = Except.error e →
      verifyStep dist s ⟨now, uid, vd⟩ = s) ∧
    (atMostOnePerUser s.responses →
      atMostOnePerUser (verifyStep dist s ⟨now, uid, vd⟩).responses) ∧
    (∀ ops, atMostOnePerUser s.responses →
      atMostOnePerUser (verifyRun dist s ops).responses) := by
  refine ⟨?_, ?_, step_preserves_unique dist s ⟨now, uid, vd⟩, ?_⟩
  · rintro ⟨row, hmem, hrow⟩
    cases hv : verify_disaster dist now uid vd s with
    | error e => exact ⟨e, rfl⟩
    | ok p =>
      obtain ⟨-, -, -, hdup, -⟩ := (verify_ok_iff dist now uid vd s p).1 hv
      simp only [List.any_eq_false, beq_iff_eq] at hdup
      exact absurd hrow (hdup row hmem)
  · intro e h
    exact verifyStep_of_error dist s ⟨now, uid, vd⟩ e h
  · intro ops
    exact run_preserves_unique dist ops s

/-- Witness for C4: user 2 already has a row in the decided fixture, so a
second submission is rejected; and pairwise distinctness is preserved over a
small concrete run. -/
theorem C4_unique_per_user_witness :
    (∃ e, verify_disaster dist0 0 2 vdNo sDecided = Except.error e) ∧
    atMostOnePerUser (verifyRun dist0 sFresh
      [⟨0, 2, vdYes⟩, ⟨0, 2, vdYes⟩, ⟨0, 3, vdNo⟩]).responses :=
  ⟨(C4_unique_per_user dist0 0 2 vdNo sDecided).1 ⟨⟨2, true, none, none⟩, by decide, rfl⟩,
    (C4_unique_per_user dist0 0 2 vdNo sFresh).2.2.2
      [⟨0, 2, vdYes⟩, ⟨0, 2, vdYes⟩, ⟨0, 3, vdNo⟩] (by decide)⟩

/-! ### C1 -/

/-- Updating the first matching row keeps it findable, with the new score. -/
theorem find?_updateTrust (l : List UserRow) (uid : ℕ) (ns : ℚ) (u : UserRow)
    (h : l.find? (fun x => x.id == uid) = some u) :
    (updateTrust uid ns l).find? (fun x => x.id == uid) = some ⟨u.id, ns⟩ := by
  induction l with
  | nil => simp at h
  | cons a rest ih =>
    by_cases ha : (a.id == uid) = true
    · have hau : a = u := by
        simpa [List.find?_cons, ha] using h
      subst hau
      unfold updateTrust
      rw [if_pos ha]
      simp [List.find?_cons, ha]
    · have h2 : List.find? (fun x => x.id == uid) rest = some u := by
        simpa [List.find?_cons, ha] using h
      unfold updateTrust
      rw [if_neg ha]
      simpa [List.find?_cons, ha] using ih h2

/-- C1: an accepted verification persists the response row and increments
the matching counter; then, once `yes + no ≥ 3`: a yes-majority sets
`VERIFIED`; otherwise a no-majority sets `FALSE_ALARM`, lowers the
reporter's trust score by 10 floored at 0, and appends exactly one
`TrustScore` ledger row carrying the previous and new score.  Stated for a
normal quorum threshold (`≥ 2`, the default is 5), where the escalation
path cannot mask the false-alarm decision. -/
theorem C1_majority_decision (dist : ℚ → ℚ → ℚ → ℚ → ℚ) (now : ℚ) (uid : ℕ)
    (vd : VerificationCreate) (s s2 : VerifyState) (r : VerifyResult) (reporter : UserRow)
    (hok : verify_disaster dist now uid vd s = Except.ok (s2, r))
    (hth : 2 ≤ s.disaster.emergency_confirmation_threshold)
    (hrep : s.users.find? (fun u => u.id == s.disaster.reporter_id) = some reporter) :
    s2.responses = s.responses ++ [⟨uid, vd.is_confirmed, vd.latitude, vd.longitude⟩] ∧
    s2.disaster.verification_count_yes = postYes vd s ∧
    s2.disaster.verification_count_no = postNo vd s ∧
    (3 ≤ postYes vd s + postNo vd s →
      (2 ≤ postYes vd s → s2.disaster.status = DisasterStatus.verified) ∧
      (postYes vd s < 2 → 2 ≤ postNo vd s →
        s2.disaster.status = DisasterStatus.false_alarm ∧
        s2.users.find? (fun u => u.id == s.disaster.reporter_id) =
          some ⟨reporter.id, max 0 (reporter.trust_score - 10)⟩ ∧
        s2.trust_events = s.trust_events ++
          [⟨reporter.id, reporter.trust_score, max 0 (reporter.trust_score - 10),
            "False alarm report"⟩])) := by
  obtain ⟨h1, -, -, -, hp⟩ := (verify_ok_iff dist now uid vd s (s2, r)).1 hok
  have hs2 : s2 = (acceptedUpdate uid vd s).1 := by rw [← hp]
  refine ⟨?_, ?_, ?_, ?_⟩
  · rw [hs2]; exact acceptedUpdate_responses uid vd s
  · rw [hs2]; exact acceptedUpdate_yes uid vd s
  · rw [hs2]; exact acceptedUpdate_no uid vd s
  · intro h3
    constructor
    · intro h2
      rw [hs2, acceptedUpdate_status, decisionTriple_verified vd s h3 h2]
      by_cases he : escalates vd s = true
      · rw [if_pos he]
      · rw [if_neg he]
    · intro hy hn
      have hesc : escalates vd s = false := by
        have hle : ¬ (s.disaster.emergency_confirmation_threshold ≤ postYes vd s) := by omega
        simp [escalates, hle]
      have hd := decisionTriple_false_alarm vd s reporter h3 hy hn hrep
      refine ⟨?_, ?_, ?_⟩
      · rw [hs2, acceptedUpdate_status, if_neg (by rw [hesc]; simp), hd]
      · rw [hs2, acceptedUpdate_users, hd]
        exact find?_updateTrust s.users s.disaster.reporter_id
          (max 0 (reporter.trust_score - 10)) reporter hrep
      · rw [hs2, acceptedUpdate_events, hd]

/-- Scenario B fixture: a pending disaster with one yes and one no response
already recorded; user 4 is about to submit the deciding no. -/
def sScenB : VerifyState :=
  ⟨⟨1, 10, 20, 1, 1, DisasterStatus.pending, DisasterAlertStatus.initial, 5, 0⟩,
    users4, [⟨2, true, none, none⟩, ⟨3, false, none, none⟩], []⟩

/-- Witness for C1 (Scenario B of the spec): after the third vote (2 no,
1 yes) the disaster becomes a false alarm and the reporter drops from 100
to 90, with one ledger row. -/
theorem C1_majority_decision_witness :
    (acceptedUpdate 4 vdNo sScenB).1.disaster.status = DisasterStatus.false_alarm ∧
    (acceptedUpdate 4 vdNo sScenB).1.users.find? (fun u => u.id == sScenB.disaster.reporter_id) =
      some ⟨1, 90⟩ ∧
    (acceptedUpdate 4 vdNo sScenB).1.trust_events =
      [⟨1, 100, 90, "False alarm report"⟩] := by
  have happ := C1_majority_decision dist0 0 4 vdNo sScenB
    (acceptedUpdate 4 vdNo sScenB).1 (acceptedUpdate 4 vdNo sScenB).2 ⟨1, 100⟩
    (by
      rw [Prod.mk.eta]
      exact (verify_ok_iff dist0 0 4 vdNo sScenB (acceptedUpdate 4 vdNo sScenB)).2
        ⟨rfl, by norm_num [sScenB], rfl, rfl, rfl⟩)
    (by norm_num [sScenB]) rfl
  obtain ⟨-, -, -, hdec⟩ := happ
  obtain ⟨-, hfa⟩ := hdec (by decide)
  obtain ⟨hst, hfind, hev⟩ := hfa (by decide) (by decide)
  have h90 : (max 0 ((100 : ℚ) - 10)) = 90 := by norm_num
  refine ⟨hst, ?_, ?_⟩
  · rw [hfind, h90]
  · rw [hev, h90]
    simp [sScenB]

/-! ### C2 -/

/-- Once `alert_status` is `EMERGENCY_ACTIVE` it stays so across any verify
call: the escalation guard refuses to re-fire and nothing else writes the
field. -/
theorem step_alert_sticky (dist : ℚ → ℚ → ℚ → ℚ → ℚ) (s : VerifyState) (op : VerifyOp)
    (h : s.disaster.alert_status = DisasterAlertStatus.emergency_active) :
    (verifyStep dist s op).disaster.alert_status = DisasterAlertStatus.emergency_active := by
  cases hv : verify_disaster dist op.now op.user_id op.data s with
  | error e =>
    rw [verifyStep_of_error dist s op e hv]
    exact h
  | ok p =>
    rw [verifyStep_of_ok dist s op p.1 p.2 (by rw [hv])]
    obtain ⟨-, -, -, -, hp⟩ := (verify_ok_iff dist op.now op.user_id op.data s p).1 hv
    have h1 : p.1 = (acceptedUpdate op.user_id op.data s).1 := by rw [hp]
    have hesc : escalates op.data s = false := by simp [escalates, h]
    rw [h1, acceptedUpdate_alert, if_neg (by rw [hesc]; simp)]
    exact h

/-- A call reporting `emergency_triggered` saw a non-emergency alert status
and left it `EMERGENCY_ACTIVE`. -/
theorem stepTriggered_elim (dist : ℚ → ℚ → ℚ → ℚ → ℚ) (s : VerifyState) (op : VerifyOp)
    (h : stepTriggered dist s op = true) :
    s.disaster.alert_status ≠ DisasterAlertStatus.emergency_active ∧
    (verifyStep dist s op).disaster.alert_status = DisasterAlertStatus.emergency_active := by
  unfold stepTriggered at h
  cases hv : verify_disaster dist op.now op.user_id op.data s with
  | error e =>
    rw [hv] at h
    simp at h
  | ok p =>
    obtain ⟨s2, r⟩ := p
    rw [hv] at h
    have ht : r.emergency_triggered = true := h
    obtain ⟨-, -, -, -, hp⟩ := (verify_ok_iff dist op.now op.user_id op.data s (s2, r)).1 hv
    have h2 : r = (acceptedUpdate op.user_id op.data s).2 := by rw [← hp]
    have h1 : s2 = (acceptedUpdate op.user_id op.data s).1 := by rw [← hp]
    rw [h2, acceptedUpdate_result] at ht
    have hesc : escalates op.data s = true := ht
    obtain ⟨-, hne⟩ := (escalates_iff op.data s).1 hesc
    refine ⟨hne, ?_⟩
    rw [verifyStep_of_ok dist s op s2 r hv, h1, acceptedUpdate_alert, if_pos hesc]

/-- From an already-escalated state no later step transitions into
`EMERGENCY_ACTIVE` again. -/
theorem runEscalationCount_zero (dist : ℚ → ℚ → ℚ → ℚ → ℚ) (ops : List VerifyOp) :
    ∀ s : VerifyState, s.disaster.alert_status = DisasterAlertStatus.emergency_active →
      runEscalationCount dist s ops = 0 := by
  induction ops with
  | nil => intro s _; rfl
  | cons op rest ih =>
    intro s h
    unfold runEscalationCount
    rw [if_neg (by intro hc; exact hc.1 h), ih (verifyStep dist s op) (step_alert_sticky dist s op h)]

/-- From an already-escalated state no later call reports a trigger. -/
theorem runTriggerCount_zero (dist : ℚ → ℚ → ℚ → ℚ → ℚ) (ops : List VerifyOp) :
    ∀ s : VerifyState, s.disaster.alert_status = DisasterAlertStatus.emergency_active →
      runTriggerCount dist s ops = 0 := by
  induction ops with
  | nil => intro s _; rfl
  | cons op rest ih =>
    intro s h
    unfold runTriggerCount
    have ht : stepTriggered dist s op = false := by
      cases hb : stepTriggered dist s op with
      | false => rfl
      | true => exact absurd h (stepTriggered_elim dist s op hb).1
    rw [ht, ih (verifyStep dist s op) (step_alert_sticky dist s op h)]
    simp

/-- C2: an accepted submission that reaches the confirmation threshold while
`alert_status` is not yet `EMERGENCY_ACTIVE` escalates — `alert_status`
becomes `EMERGENCY_ACTIVE`, `status` is forced to `VERIFIED`, and the
response reports `emergency_triggered = true`; and over any sequence of
verify calls the `alert_status` transitions into `EMERGENCY_ACTIVE` at most
once and at most one call reports a trigger (the broadcast fires at most
once per disaster). -/
theorem C2_emergency_at_most_once (dist : ℚ → ℚ → ℚ → ℚ → ℚ) :
    (∀ (now : ℚ) (uid : ℕ) (vd : VerificationCreate) (s s2 : VerifyState) (r : VerifyResult),
      verify_disaster dist now uid vd s = Except.ok (s2, r) →
      s.disaster.alert_status ≠ DisasterAlertStatus.emergency_active →
      s.disaster.emergency_confirmation_threshold ≤ s2.disaster.verification_count_yes →
      s2.disaster.alert_status = DisasterAlertStatus.emergency_active ∧
      s2.disaster.status = DisasterStatus.verified ∧
      r.emergency_triggered = true) ∧
    (∀ (s : VerifyState) (ops : List VerifyOp), runEscalationCount dist s ops ≤ 1) ∧
    (∀ (s : VerifyState) (ops : List VerifyOp), runTriggerCount dist s ops ≤ 1) := by
  have hesc1 : ∀ (s : VerifyState) (ops : List VerifyOp), runEscalationCount dist s ops ≤ 1 := by
    intro s ops
    induction ops generalizing s with
    | nil => exact Nat.zero_le 1
    | cons op rest ih =>
      unfold runEscalationCount
      by_cases hc : s.disaster.alert_status ≠ DisasterAlertStatus.emergency_active ∧
          (verifyStep dist s op).disaster.alert_status = DisasterAlertStatus.emergency_active
      · rw [if_pos hc, runEscalationCount_zero dist rest (verifyStep dist s op) hc.2]
      · rw [if_neg hc]
        simpa using ih (verifyStep dist s op)
  have htrig1 : ∀ (s : VerifyState) (ops : List VerifyOp), runTriggerCount dist s ops ≤ 1 := by
    intro s ops
    induction ops generalizing s with
    | nil => exact Nat.zero_le 1
    | cons op rest ih =>
      unfold runTriggerCount
      cases hb : stepTriggered dist s op with
      | true =>
        rw [runTriggerCount_zero dist rest (verifyStep dist s op)
          (stepTriggered_elim dist s op hb).2]
        simp
      | false =>
        simpa using ih (verifyStep dist s op)
  refine ⟨?_, hesc1, htrig1⟩
  intro now uid vd s s2 r hok hne hth
  obtain ⟨-, -, -, -, hp⟩ := (verify_ok_iff dist now uid vd s (s2, r)).1 hok
  have hs2 : s2 = (acceptedUpdate uid vd s).1 := by rw [← hp]
  have hr : r = (acceptedUpdate uid vd s).2 := by rw [← hp]
  have hyes : s2.disaster.verification_count_yes = postYes vd s := by
    rw [hs2]; exact acceptedUpdate_yes uid vd s
  rw [hyes] at hth
  have hesc : escalates vd s = true := (escalates_iff vd s).2 ⟨hth, hne⟩
  refine ⟨?_, ?_, ?_⟩
  · rw [hs2, acceptedUpdate_alert, if_pos hesc]
  · rw [hs2, acceptedUpdate_status, if_pos hesc]
  · rw [hr, acceptedUpdate_result]
    exact hesc

/-- An undecided disaster one yes short of a threshold of 1. -/
def sThresh1 : VerifyState :=
  ⟨⟨1, 10, 20, 0, 0, DisasterStatus.pending, DisasterAlertStatus.initial, 1, 0⟩,
    users4, [], []⟩

/-- Witness for C2: with threshold 1 a single accepted yes escalates,
forces `VERIFIED` and reports the trigger. -/
theorem C2_emergency_at_most_once_witness :
    (acceptedUpdate 2 vdYes sThresh1).1.disaster.alert_status =
      DisasterAlertStatus.emergency_active ∧
    (acceptedUpdate 2 vdYes sThresh1).1.disaster.status = DisasterStatus.verified ∧
    (acceptedUpdate 2 vdYes sThresh1).2.emergency_triggered = true :=
  (C2_emergency_at_most_once dist0).1 0 2 vdYes sThresh1
    (acceptedUpdate 2 vdYes sThresh1).1 (acceptedUpdate 2 vdYes sThresh1).2
    (by
      rw [Prod.mk.eta]
      exact (verify_ok_iff dist0 0 2 vdYes sThresh1 (acceptedUpdate 2 vdYes sThresh1)).2
        ⟨rfl, by norm_num [sThresh1], rfl, rfl, rfl⟩)
    (by decide) (by decide)

/-! ### C5 and C6 -/

/-- Every rejection of `verify_disaster` is one of the four checks, in
source order, with its specific error. -/
theorem verify_error_elim (dist : ℚ → ℚ → ℚ → ℚ → ℚ) (now : ℚ) (uid : ℕ)
    (vd : VerificationCreate) (s : VerifyState) (e : VerifyError)
    (h : verify_disaster dist now uid vd s = Except.error e) :
    (s.disaster.status ≠ DisasterStatus.pending ∧ e = VerifyError.alreadyDecided) ∨
    (s.disaster.status = DisasterStatus.pending ∧ now - s.disaster.created_at > 30 ∧
      e = VerifyError.staleReport) ∨
    (s.disaster.status = DisasterStatus.pending ∧ ¬ (now - s.disaster.created_at > 30) ∧
      distanceRejects dist vd s = true ∧ e = VerifyError.tooFar) ∨
    (s.disaster.status = DisasterStatus.pending ∧ ¬ (now - s.disaster.created_at > 30) ∧
      distanceRejects dist vd s = false ∧
      s.responses.any (fun r => r.user_id == uid) = true ∧
      e = VerifyError.alreadyVerified) := by
  unfold verify_disaster at h
  split at h
  next h1 =>
    left
    refine ⟨h1, ?_⟩
    injection h with h
    exact h.symm
  next h1 =>
    rw [not_not] at h1
    split at h
    next h2 =>
      right; left
      refine ⟨h1, h2, ?_⟩
      injection h with h
      exact h.symm
    next h2 =>
      split at h
      next h3 =>
        right; right; left
        refine ⟨h1, h2, h3, ?_⟩
        injection h with h
        exact h.symm
      next h3 =>
        rw [Bool.not_eq_true] at h3
        split at h
        next h4 =>
          right; right; right
          refine ⟨h1, h2, h3, h4, ?_⟩
          injection h with h
          exact h.symm
        next h4 =>
          exact absurd h (by simp)

/-- The distance guard passes when the supplied location is within 10 km. -/
theorem distanceRejects_false_of_close (dist : ℚ → ℚ → ℚ → ℚ → ℚ)
    (vd : VerificationCreate) (s : VerifyState)
    (hlat : optTruthy vd.latitude = true) (hlon : optTruthy vd.longitude = true)
    (hle : dist (vd.latitude.getD 0) (vd.longitude.getD 0)
      s.disaster.latitude s.disaster.longitude ≤ 10) :
    distanceRejects dist vd s = false := by
  simp only [distanceRejects, hlat, hlon, Bool.true_and, decide_eq_false_iff_not]
  exact not_lt.mpr hle

/-- The distance guard is skipped when either coordinate is falsy. -/
theorem distanceRejects_false_of_falsy (dist : ℚ → ℚ → ℚ → ℚ → ℚ)
    (vd : VerificationCreate) (s : VerifyState)
    (h : optTruthy vd.latitude = false ∨ optTruthy vd.longitude = false) :
    distanceRejects dist vd s = false := by
  rcases h with h | h <;> simp [distanceRejects, h]

/-- C5 (amended): a pending report strictly older than 30 minutes is
rejected with the stale-report error and no side effects; any accepted call
happened at age at most 30 minutes (the boundary `age = 30` is accepted,
since the source rejects only `report_age > timedelta(minutes=30)`). -/
theorem C5_stale_report (dist : ℚ → ℚ → ℚ → ℚ → ℚ) (now : ℚ) (uid : ℕ)
    (vd : VerificationCreate) (s : VerifyState) :
    (s.disaster.status = DisasterStatus.pending → now - s.disaster.created_at > 30 →
      verify_disaster dist now uid vd s = Except.error VerifyError.staleReport ∧
      verifyStep dist s ⟨now, uid, vd⟩ = s) ∧
    (∀ s2 r, verify_disaster dist now uid vd s = Except.ok (s2, r) →
      now - s.disaster.created_at ≤ 30) := by
  constructor
  · intro h1 h2
    have he := verify_stale dist now uid vd s h1 h2
    exact ⟨he, verifyStep_of_error dist s ⟨now, uid, vd⟩ _ he⟩
  · intro s2 r h
    obtain ⟨-, h2, -, -, -⟩ := (verify_ok_iff dist now uid vd s (s2, r)).1 h
    exact le_of_not_lt h2

/-- Counterexample to C5 as stated: a report whose age is exactly 30
minutes ("30 minutes or more") is accepted, not rejected — the source
rejects only ages strictly greater than 30 minutes — and the accepted call
persists a response row (a side effect). -/
theorem C5_boundary_counterexample :
    (30 : ℚ) - sFresh.disaster.created_at = 30 ∧
    verify_disaster dist0 30 2 vdYes sFresh =
      Except.ok (acceptedUpdate 2 vdYes sFresh) ∧
    (acceptedUpdate 2 vdYes sFresh).1.responses =
      sFresh.responses ++ [⟨2, true, none, none⟩] :=
  ⟨by norm_num [sFresh, pendingDisaster],
    (verify_ok_iff dist0 30 2 vdYes sFresh (acceptedUpdate 2 vdYes sFresh)).2
      ⟨rfl, by norm_num [sFresh, pendingDisaster], rfl, rfl, rfl⟩,
    rfl⟩

/-- Witness for C5 (amended): at age 31 minutes the call is rejected as
stale and changes nothing, and the boundary acceptance at age 30 satisfies
the age bound `≤ 30`. -/
theorem C5_stale_report_witness :
    (verify_disaster dist0 31 2 vdYes sFresh = Except.error VerifyError.staleReport ∧
      verifyStep dist0 sFresh ⟨31, 2, vdYes⟩ = sFresh) ∧
    (31 : ℚ) - sFresh.disaster.created_at > 30 ∧
    (30 : ℚ) - sFresh.disaster.created_at ≤ 30 :=
  ⟨(C5_stale_report dist0 31 2 vdYes sFresh).1 rfl
      (by norm_num [sFresh, pendingDisaster]),
    by norm_num [sFresh, pendingDisaster],
    (C5_stale_report dist0 30 2 vdYes sFresh).2
      (acceptedUpdate 2 vdYes sFresh).1 (acceptedUpdate 2 vdYes sFresh).2
      (by
        rw [Prod.mk.eta]
        exact (verify_ok_iff dist0 30 2 vdYes sFresh (acceptedUpdate 2 vdYes sFresh)).2
          ⟨rfl, by norm_num [sFresh, pendingDisaster], rfl, rfl, rfl⟩)⟩

/-- C6 (amended): the range check fires only when both supplied coordinates
are truthy in Python's sense (present and nonzero): then a distance above
10 km rejects with the distance error and no side effects, a distance
within 10 km never produces the distance error, and a falsy coordinate
(absent, or equal to 0.0) skips the check entirely so the distance error
can never arise. -/
theorem C6_distance_check (dist : ℚ → ℚ → ℚ → ℚ → ℚ) (now : ℚ) (uid : ℕ)
    (vd : VerificationCreate) (s : VerifyState) :
    (s.disaster.status = DisasterStatus.pending →
      ¬ (now - s.disaster.created_at > 30) →
      optTruthy vd.latitude = true → optTruthy vd.longitude = true →
      dist (vd.latitude.getD 0) (vd.longitude.getD 0)
        s.disaster.latitude s.disaster.longitude > 10 →
      verify_disaster dist now uid vd s = Except.error VerifyError.tooFar ∧
      verifyStep dist s ⟨now, uid, vd⟩ = s) ∧
    (optTruthy vd.latitude = true → optTruthy vd.longitude = true →
      dist (vd.latitude.getD 0) (vd.longitude.getD 0)
        s.disaster.latitude s.disaster.longitude ≤ 10 →
      ∀ e, verify_disaster dist now uid vd s = Except.error e →
        e ≠ VerifyError.tooFar) ∧
    ((optTruthy vd.latitude = false ∨ optTruthy vd.longitude = false) →
      ∀ e, verify_disaster dist now uid vd s = Except.error e →
        e ≠ VerifyError.tooFar) := by
  refine ⟨?_, ?_, ?_⟩
  · intro h1 h2 hlat hlon hgt
    have hd : distanceRejects dist vd s = true := by
      simp only [distanceRejects, hlat, hlon, Bool.true_and, decide_eq_true_eq]
      exact hgt
    have he := verify_tooFar dist now uid vd s h1 h2 hd
    exact ⟨he, verifyStep_of_error dist s ⟨now, uid, vd⟩ _ he⟩
  · intro hlat hlon hle e he
    have hd := distanceRejects_false_of_close dist vd s hlat hlon hle
    rcases verify_error_elim dist now uid vd s e he with
      ⟨-, h⟩ | ⟨-, -, h⟩ | ⟨-, -, hdr, -⟩ | ⟨-, -, -, -, h⟩
    · rw [h]; simp
    · rw [h]; simp
    · rw [hd] at hdr; exact absurd hdr (by simp)
    · rw [h]; simp
  · intro hfalsy e he
    have hd := distanceRejects_false_of_falsy dist vd s hfalsy
    rcases verify_error_elim dist now uid vd s e he with
      ⟨-, h⟩ | ⟨-, -, h⟩ | ⟨-, -, hdr, -⟩ | ⟨-, -, -, -, h⟩
    · rw [h]; simp
    · rw [h]; simp
    · rw [hd] at hdr; exact absurd hdr (by simp)
    · rw [h]; simp

/-- A distance function that reports every pair of points 1111 km apart
(the real haversine distance between (0°, 50°) and (0°, 60°) along the
equator is about 1113 km, far above 10 km). -/
def distFar : ℚ → ℚ → ℚ → ℚ → ℚ := fun _ _ _ _ => 1111

/-- A pending disaster located at (0°, 60°) on the equator. -/
def sEquator : VerifyState :=
  ⟨⟨1, 0, 60, 0, 0, DisasterStatus.pending, DisasterAlertStatus.initial, 5, 0⟩,
    users4, [], []⟩

/-- A verification whose supplied location has latitude 0.0: present, but
falsy for Python's `if verification_data.latitude and ...` guard. -/
def vdZeroLat : VerificationCreate := ⟨true, some 0, some 50⟩

/-- Counterexample to C6 as stated: the submitter supplies a location
(latitude 0.0 and longitude 50 are both present) whose distance to the
disaster exceeds 10 km, yet the submission is accepted, because latitude
0.0 is falsy and the range check is skipped. -/
theorem C6_zero_latitude_counterexample :
    vdZeroLat.latitude = some 0 ∧ vdZeroLat.longitude = some 50 ∧
    distFar (vdZeroLat.latitude.getD 0) (vdZeroLat.longitude.getD 0)
      sEquator.disaster.latitude sEquator.disaster.longitude > 10 ∧
    verify_disaster distFar 0 2 vdZeroLat sEquator =
      Except.ok (acceptedUpdate 2 vdZeroLat sEquator) :=
  ⟨rfl, rfl, by norm_num [distFar],
    (verify_ok_iff distFar 0 2 vdZeroLat sEquator (acceptedUpdate 2 vdZeroLat sEquator)).2
      ⟨rfl, by norm_num [sEquator],
        by simp [distanceRejects, optTruthy, vdZeroLat], rfl, rfl⟩⟩

/-- A verification supplying a truthy location at (7, 8). -/
def vdFarLoc : VerificationCreate := ⟨true, some 7, some 8⟩

/-- Witness for C6 (amended): a truthy far-away location rejects with the
distance error and changes nothing, and a rejection taken on an
already-decided disaster is never the distance error when the location is
absent. -/
theorem C6_distance_check_witness :
    (verify_disaster distFar 0 2 vdFarLoc sFresh = Except.error VerifyError.tooFar ∧
      verifyStep distFar sFresh ⟨0, 2, vdFarLoc⟩ = sFresh) ∧
    VerifyError.alreadyDecided ≠ VerifyError.tooFar :=
  ⟨(C6_distance_check distFar 0 2 vdFarLoc sFresh).1 rfl
      (by norm_num [sFresh, pendingDisaster])
      (by norm_num [optTruthy, vdFarLoc])
      (by norm_num [optTruthy, vdFarLoc])
      (by norm_num [distFar]),
    (C6_distance_check dist0 0 2 vdYes sDecided).2.2 (Or.inl rfl)
      VerifyError.alreadyDecided
      (verify_not_pending dist0 0 2 vdYes sDecided (by decide))⟩

/-! ### Evacuation module (`routes/evacuation.py`) -/

/-- Movement analysis constants (`routes/evacuation.py:19-23`). -/
def CROWD_ALIGNMENT_THRESHOLD : ℚ := 60 / 100

def DIRECTION_TOLERANCE_DEGREES : ℚ := 30

def EVACUATION_ALERT_THROTTLE_MINUTES : ℚ := 3

def ANALYSIS_TIME_WINDOW_MINUTES : ℚ := 5

def MIN_DEVICES_FOR_CROWD_ANALYSIS : ℕ := 5

/-- A `device_locations` row.  The field list is modelled from the spec
(§3, `DeviceLocationSample`): the snapshot's `models.py` predates the
`DeviceLocation` ORM class used by `routes/evacuation.py`. -/
structure DeviceLocation where
  device_hash : String
  latitude : ℚ
  longitude : ℚ
  heading : Option ℚ
  speed : Option ℚ
  timestamp : ℚ
deriving DecidableEq, Repr

/-- The dictionary returned by a successful `analyze_crowd_movement`. -/
structure CrowdSignal where
  direction : ℚ
  confidence : ℚ
  device_count : ℕ
deriving DecidableEq, Repr

/-- Smallest difference between two angles (`angle_difference`,
`routes/evacuation.py:47-50`). -/
def angle_difference (angle1 angle2 : ℚ) : ℚ :=
  min |angle1 - angle2| (360 - |angle1 - angle2|)

/-- For one candidate heading, how many headings lie within tolerance
(`routes/evacuation.py:75`). -/
def supportCount (headings : List ℚ) (h1 : ℚ) : ℕ :=
  (headings.filter (fun h2 =>
    decide (angle_difference h1 h2 ≤ DIRECTION_TOLERANCE_DEGREES))).length

/-- The dominant-direction scan (`routes/evacuation.py:71-78`): running
best direction (`None` before the first candidate) and best support count,
first-seen wins ties through the strict `count > best_count` test. -/
def bestCluster (headings : List ℚ) : Option ℚ × ℕ :=
  headings.foldl
    (fun acc h1 =>
      if supportCount headings h1 > acc.2 then (some h1, supportCount headings h1) else acc)
    (none, 0)

/-- `alignment_ratio = best_count / len(headings)`
(`routes/evacuation.py:80`). -/
def alignFracOf (headings : List ℚ) : ℚ :=
  ((bestCluster headings).2 : ℚ) / (headings.length : ℚ)

/-- The headings within tolerance of the cluster anchor
(`routes/evacuation.py:84`).  With at least one heading the anchor is
always `some`; `getD 0` is the total-function rendering of that fact. -/
def alignedOf (headings : List ℚ) : List ℚ :=
  headings.filter (fun h =>
    decide (angle_difference h ((bestCluster headings).1.getD 0) ≤
      DIRECTION_TOLERANCE_DEGREES))

/-- Embedding of `analyze_crowd_movement` (`routes/evacuation.py:53-98`).
`avgDir` stands for the trigonometric circular mean of the aligned headings
(`atan2` of summed sines and cosines), taken as an uninterpreted function.
A sample's headings list is `filterMap heading`, exactly the
`devices_with_heading` comprehension of the source. -/
def analyze_crowd_movement (avgDir : List ℚ → ℚ)
    (device_locations : List DeviceLocation) : Option CrowdSignal :=
  if device_locations.length < MIN_DEVICES_FOR_CROWD_ANALYSIS then none
  else if (device_locations.filterMap (fun d => d.heading)).length <
      MIN_DEVICES_FOR_CROWD_ANALYSIS then none
  else if alignFracOf (device_locations.filterMap (fun d => d.heading)) ≥
      CROWD_ALIGNMENT_THRESHOLD then
    some ⟨avgDir (alignedOf (device_locations.filterMap (fun d => d.heading))),
      alignFracOf (device_locations.filterMap (fun d => d.heading)),
      (alignedOf (device_locations.filterMap (fun d => d.heading))).length⟩
  else none

/-! ### C7 -/

/-- C7: with fewer than 5 headed samples the analyzer returns no signal;
with at least 5 headed samples it returns a direction exactly when the best
cluster's support count divided by the number of headed samples reaches the
0.60 threshold, and the reported confidence is that alignment ratio. -/
theorem C7_crowd_alignment (avgDir : List ℚ → ℚ) (locs : List DeviceLocation) :
    MIN_DEVICES_FOR_CROWD_ANALYSIS = 5 ∧
    CROWD_ALIGNMENT_THRESHOLD = 60 / 100 ∧
    ((locs.filterMap (fun d => d.heading)).length < MIN_DEVICES_FOR_CROWD_ANALYSIS →
      analyze_crowd_movement avgDir locs = none) ∧
    (MIN_DEVICES_FOR_CROWD_ANALYSIS ≤ (locs.filterMap (fun d => d.heading)).length →
      ((analyze_crowd_movement avgDir locs).isSome = true ↔
        alignFracOf (locs.filterMap (fun d => d.heading)) ≥ CROWD_ALIGNMENT_THRESHOLD) ∧
      (∀ sig, analyze_crowd_movement avgDir locs = some sig →
        sig.confidence = alignFracOf (locs.filterMap (fun d => d.heading)))) := by
  refine ⟨rfl, rfl, ?_, ?_⟩
  · intro h
    unfold analyze_crowd_movement
    by_cases h0 : locs.length < MIN_DEVICES_FOR_CROWD_ANALYSIS
    · rw [if_pos h0]
    · rw [if_neg h0, if_pos h]
  · intro h5
    have hfm := List.length_filterMap_le (fun d => d.heading) locs
    have h0 : ¬ (locs.length < MIN_DEVICES_FOR_CROWD_ANALYSIS) := by omega
    constructor
    · unfold analyze_crowd_movement
      rw [if_neg h0, if_neg (by omega)]
      by_cases hr : alignFracOf (locs.filterMap (fun d => d.heading)) ≥
          CROWD_ALIGNMENT_THRESHOLD
      · rw [if_pos hr]
        simpa using hr
      · rw [if_neg hr]
        simpa using hr
    · intro sig hsig
      unfold analyze_crowd_movement at hsig
      rw [if_neg h0, if_neg (by omega)] at hsig
      by_cases hr : alignFracOf (locs.filterMap (fun d => d.heading)) ≥
          CROWD_ALIGNMENT_THRESHOLD
      · rw [if_pos hr] at hsig
        injection hsig with h
        rw [← h]
      · rw [if_neg hr] at hsig
        exact absurd hsig (by simp)

/-- A degenerate circular mean for concrete runs; theorems hold for an
arbitrary `avgDir`. -/
def avg0 : List ℚ → ℚ := fun _ => 0

/-- Ten samples of which only four carry a heading. -/
def locsSmall : List DeviceLocation :=
  [⟨"a", 0, 0, some 0, none, 0⟩, ⟨"b", 0, 0, some 10, none, 0⟩,
   ⟨"c", 0, 0, some 20, none, 0⟩, ⟨"d", 0, 0, some 30, none, 0⟩,
   ⟨"e", 0, 0, none, none, 0⟩, ⟨"f", 0, 0, none, none, 0⟩,
   ⟨"g", 0, 0, none, none, 0⟩, ⟨"h", 0, 0, none, none, 0⟩,
   ⟨"i", 0, 0, none, none, 0⟩, ⟨"j", 0, 0, none, none, 0⟩]

/-- Ten headed samples, six at 0° and four at 90°: alignment ratio exactly
6/10 = 0.60, the acceptance boundary. -/
def locsBoundary : List DeviceLocation :=
  [⟨"a", 0, 0, some 0, none, 0⟩, ⟨"b", 0, 0, some 0, none, 0⟩,
   ⟨"c", 0, 0, some 0, none, 0⟩, ⟨"d", 0, 0, some 0, none, 0⟩,
   ⟨"e", 0, 0, some 0, none, 0⟩, ⟨"f", 0, 0, some 0, none, 0⟩,
   ⟨"g", 0, 0, some 90, none, 0⟩, ⟨"h", 0, 0, some 90, none, 0⟩,
   ⟨"i", 0, 0, some 90, none, 0⟩, ⟨"j", 0, 0, some 90, none, 0⟩]

/-- Ten headed samples with best cluster 5 of 10: ratio 0.5, below the
threshold. -/
def locsBelow : List DeviceLocation :=
  [⟨"a", 0, 0, some 0, none, 0⟩, ⟨"b", 0, 0, some 0, none, 0⟩,
   ⟨"c", 0, 0, some 0, none, 0⟩, ⟨"d", 0, 0, some 0, none, 0⟩,
   ⟨"e", 0, 0, some 0, none, 0⟩, ⟨"f", 0, 0, some 90, none, 0⟩,
   ⟨"g", 0, 0, some 90, none, 0⟩, ⟨"h", 0, 0, some 90, none, 0⟩,
   ⟨"i", 0, 0, some 90, none, 0⟩, ⟨"j", 0, 0, some 180, none, 0⟩]

/-- Witness for C7: four headed samples yield no signal; at the exact 0.60
boundary the analyzer returns a direction; at ratio 0.5 it does not. -/
theorem C7_crowd_alignment_witness :
    analyze_crowd_movement avg0 locsSmall = none ∧
    (analyze_crowd_movement avg0 locsBoundary).isSome = true ∧
    ¬ ((analyze_crowd_movement avg0 locsBelow).isSome = true) :=
  ⟨(C7_crowd_alignment avg0 locsSmall).2.2.1 (by decide),
    ((C7_crowd_alignment avg0 locsBoundary).2.2.2 (by decide)).1.mpr
      (by norm_num [locsBoundary, alignFracOf, bestCluster, supportCount, angle_difference,
        DIRECTION_TOLERANCE_DEGREES, CROWD_ALIGNMENT_THRESHOLD,
        List.filterMap, List.foldl, List.filter]),
    fun h =>
      absurd (((C7_crowd_alignment avg0 locsBelow).2.2.2 (by decide)).1.mp h)
        (by norm_num [locsBelow, alignFracOf, bestCluster, supportCount, angle_difference,
          DIRECTION_TOLERANCE_DEGREES, CROWD_ALIGNMENT_THRESHOLD,
          List.filterMap, List.foldl, List.filter])⟩

/-! ### C10 -/

/-- Five location pings from one and the same device, all heading 90°. -/
def c10samples : List DeviceLocation :=
  [⟨"same-device", 10, 20, some 90, none, 0⟩, ⟨"same-device", 10, 20, some 90, none, 0⟩,
   ⟨"same-device", 10, 20, some 90, none, 0⟩, ⟨"same-device", 10, 20, some 90, none, 0⟩,
   ⟨"same-device", 10, 20, some 90, none, 0⟩]

/-- C10: the crowd analyzer counts location samples, not distinct devices —
its output is invariant under any relabelling of `device_hash`, and five
aligned pings of a single device produce a signal with `device_count = 5`
and confidence 1. -/
theorem C10_samples_not_devices (avgDir : List ℚ → ℚ) :
    (∀ (locs : List DeviceLocation) (f : String → String),
      analyze_crowd_movement avgDir
        (locs.map (fun d =>
          ⟨f d.device_hash, d.latitude, d.longitude, d.heading, d.speed, d.timestamp⟩)) =
        analyze_crowd_movement avgDir locs) ∧
    analyze_crowd_movement avgDir c10samples =
      some ⟨avgDir [90, 90, 90, 90, 90], 1, 5⟩ := by
  constructor
  · intro locs f
    have h1 : (locs.map (fun d =>
        (⟨f d.device_hash, d.latitude, d.longitude, d.heading, d.speed, d.timestamp⟩ :
          DeviceLocation))).filterMap (fun d => d.heading) =
        locs.filterMap (fun d => d.heading) := by
      rw [List.filterMap_map]
      congr 1
    have h2 : (locs.map (fun d =>
        (⟨f d.device_hash, d.latitude, d.longitude, d.heading, d.speed, d.timestamp⟩ :
          DeviceLocation))).length = locs.length := List.length_map _ _
    unfold analyze_crowd_movement
    rw [h1, h2]
  · have hfrac : alignFracOf (c10samples.filterMap (fun d => d.heading)) = 1 := by
      norm_num [c10samples, alignFracOf, bestCluster, supportCount, angle_difference,
        DIRECTION_TOLERANCE_DEGREES, List.filterMap, List.foldl, List.filter]
    have haligned : alignedOf (c10samples.filterMap (fun d => d.heading)) =
        [90, 90, 90, 90, 90] := by
      norm_num [c10samples, alignedOf, bestCluster, supportCount, angle_difference,
        DIRECTION_TOLERANCE_DEGREES, List.filterMap, List.foldl, List.filter]
    unfold analyze_crowd_movement
    rw [if_neg (by decide), if_neg (by decide), if_pos (by rw [hfrac]; norm_num
      [CROWD_ALIGNMENT_THRESHOLD]), hfrac, haligned]
    rfl

/-! ### Evacuation advisor and alert throttle -/

/-- A `safe_areas` row; fields modelled from the spec (§3, `SafeArea`), the
snapshot's `models.py` predating the ORM class.  The route's
`SafeAreaResponse` copies these fields verbatim, so the response embeds the
row itself. -/
structure SafeArea where
  id : ℕ
  latitude : ℚ
  longitude : ℚ
  radius_km : ℚ
  description : Option String
  is_active : Bool
deriving DecidableEq, Repr

/-- Python's `round(x)` to an integer: nearest, ties to even, modelled
exactly over ℚ (the source rounds IEEE doubles; floats are exact rationals
throughout this embedding). -/
def pyRoundInt (x : ℚ) : ℤ :=
  if x - ⌊x⌋ < 1 / 2 then ⌊x⌋
  else if 1 / 2 < x - ⌊x⌋ then ⌊x⌋ + 1
  else if ⌊x⌋ % 2 = 0 then ⌊x⌋ else ⌊x⌋ + 1

/-- Python's `round(x, ndigits)` over ℚ. -/
def pyRound (x : ℚ) (ndigits : ℕ) : ℚ :=
  (pyRoundInt (x * (10 : ℚ) ^ ndigits) : ℚ) / (10 : ℚ) ^ ndigits

/-- One iteration of the nearest-safe-area scan
(`routes/evacuation.py:158-162`): `None` plays the role of the initial
`float('inf')`, and a strict `<` keeps the first of equally near areas. -/
def nearestStep (dist : ℚ → ℚ → ℚ → ℚ → ℚ) (lat lng : ℚ)
    (acc : Option (SafeArea × ℚ)) (area : SafeArea) : Option (SafeArea × ℚ) :=
  match acc with
  | none => some (area, dist lat lng area.latitude area.longitude)
  | some (b, q) =>
    if dist lat lng area.latitude area.longitude < q then
      some (area, dist lat lng area.latitude area.longitude)
    else some (b, q)

/-- The nearest-safe-area scan over a list of areas. -/
def nearestArea (dist : ℚ → ℚ → ℚ → ℚ → ℚ) (lat lng : ℚ)
    (areas : List SafeArea) : Option (SafeArea × ℚ) :=
  areas.foldl (nearestStep dist lat lng) none

/-- The response of `GET /api/evacuation/direction`
(`EvacuationDirectionResponse`, `schemas.py`); unset optional fields are
`none`. -/
structure EvacuationDirectionResponse where
  has_safe_area : Bool
  safe_area : Option SafeArea
  distance_km : Option ℚ
  estimated_time_minutes : Option ℚ
  bearing_to_safe_area : Option ℚ
  crowd_direction : Option ℚ
  crowd_confidence : Option ℚ
deriving DecidableEq, Repr

/-- Device-location rows of the last 5 minutes within 5 km of the query
point (`routes/evacuation.py:191-201` and `247-256`). -/
def nearbyRecentLocations (dist : ℚ → ℚ → ℚ → ℚ → ℚ) (now lat lng : ℚ)
    (locations : List DeviceLocation) : List DeviceLocation :=
  (locations.filter
      (fun l => decide (l.timestamp ≥ now - ANALYSIS_TIME_WINDOW_MINUTES))).filter
    (fun l => decide (dist lat lng l.latitude l.longitude ≤ 5))

/-- The crowd-inference fallback of `get_evacuation_direction`
(`routes/evacuation.py:190-215`). -/
def evacuationCrowdBranch (dist : ℚ → ℚ → ℚ → ℚ → ℚ) (avgDir : List ℚ → ℚ)
    (now lat lng : ℚ) (locations : List DeviceLocation) : EvacuationDirectionResponse :=
  match analyze_crowd_movement avgDir (nearbyRecentLocations dist now lat lng locations) with
  | some c =>
    ⟨false, none, none, none, none, some (pyRound c.direction 1), some (pyRound c.confidence 2)⟩
  | none => ⟨false, none, none, none, none, none, none⟩

/-- Embedding of `get_evacuation_direction` (`routes/evacuation.py:136-215`).
`bearingF` stands for the trigonometric `calculate_bearing`.  The nearest
active safe area within 30 km wins; only otherwise is crowd movement
analyzed. -/
def get_evacuation_direction (dist bearingF : ℚ → ℚ → ℚ → ℚ → ℚ) (avgDir : List ℚ → ℚ)
    (now lat lng : ℚ) (safe_areas : List SafeArea) (locations : List DeviceLocation) :
    EvacuationDirectionResponse :=
  match nearestArea dist lat lng (safe_areas.filter (fun a => a.is_active)) with
  | some (area, min_distance) =>
    if min_distance ≤ 30 then
      ⟨true, some area, some (pyRound min_distance 2),
        some (pyRound ((min_distance / 5) * 60) 1),
        some (pyRound (bearingF lat lng area.latitude area.longitude) 1), none, none⟩
    else evacuationCrowdBranch dist avgDir now lat lng locations
  | none => evacuationCrowdBranch dist avgDir now lat lng locations

/-- An `evacuation_alerts` row; fields modelled from the spec (§3,
`EvacuationAlertRecord`), the snapshot's `models.py` predating the ORM
class; `sent_at` defaults to the creation time. -/
structure EvacuationAlert where
  area_latitude : ℚ
  area_longitude : ℚ
  direction_degrees : ℚ
  disaster_id : ℕ
  sent_at : ℚ
deriving DecidableEq, Repr

/-- A `devices` row (the columns the trigger endpoint reads); modelled from
the spec as the snapshot's `models.py` predates the ORM class. -/
structure Device where
  is_active : Bool
  expo_push_token : Option String
deriving DecidableEq, Repr

/-- Database state visible to `POST /api/evacuation/trigger-crowd-alert`,
plus a counter of dispatched notifications (an external side channel). -/
structure EvacState where
  alerts : List EvacuationAlert
  locations : List DeviceLocation
  devices : List Device
  notifications_sent : ℕ
deriving DecidableEq, Repr

/-- The JSON body returned by the trigger endpoint; absent keys are
`none`. -/
structure TriggerResult where
  triggered : Bool
  reason : Option String
  direction : Option ℚ
  confidence : Option ℚ
  devices_notified : Option ℕ
deriving DecidableEq, Repr

/-- The throttle lookup (`routes/evacuation.py:231-244`): an alert of the
same disaster sent within the last 3 minutes and lying within 2 km. -/
def throttledRecently (dist : ℚ → ℚ → ℚ → ℚ → ℚ) (now lat lng : ℚ) (disaster_id : ℕ)
    (alerts : List EvacuationAlert) : Bool :=
  (alerts.filter (fun al =>
      decide (al.sent_at ≥ now - EVACUATION_ALERT_THROTTLE_MINUTES) &&
        (al.disaster_id == disaster_id))).any
    (fun al => decide (dist lat lng al.area_latitude al.area_longitude ≤ 2))

/-- The push tokens the triggered alert notifies
(`routes/evacuation.py:274-279`): active devices with a token, the list
comprehension dropping falsy (empty) tokens. -/
def crowdTokens (devices : List Device) : List String :=
  (((devices.filter (fun d => d.is_active && d.expo_push_token.isSome)).filterMap
      (fun d => d.expo_push_token)).filter (fun t => decide (t ≠ "")))

/-- Embedding of `trigger_crowd_evacuation_alert`
(`routes/evacuation.py:218-320`): throttle check first, then crowd
analysis; only a fired alert persists an `EvacuationAlert` row and
dispatches one notification (when any token exists). -/
def trigger_crowd_evacuation_alert (dist : ℚ → ℚ → ℚ → ℚ → ℚ) (avgDir : List ℚ → ℚ)
    (now lat lng : ℚ) (disaster_id : ℕ) (st : EvacState) : TriggerResult × EvacState :=
  if throttledRecently dist now lat lng disaster_id st.alerts then
    (⟨false, some "throttled", none, none, none⟩, st)
  else
    match analyze_crowd_movement avgDir (nearbyRecentLocations dist now lat lng st.locations) with
    | none => (⟨false, some "no_crowd_pattern", none, none, none⟩, st)
    | some c =>
      (⟨true, none, some c.direction, some c.confidence, some (crowdTokens st.devices).length⟩,
        ⟨st.alerts ++ [⟨lat, lng, c.direction, disaster_id, now⟩], st.locations, st.devices,
          st.notifications_sent + (if (crowdTokens st.devices).isEmpty then 0 else 1)⟩)

/-- The scan step always carries the distance of its chosen area. -/
theorem nearestStep_dist_inv (dist : ℚ → ℚ → ℚ → ℚ → ℚ) (lat lng : ℚ)
    (acc : Option (SafeArea × ℚ)) (x : SafeArea) (p : SafeArea) (q : ℚ)
    (hacc : ∀ p0 q0, acc = some (p0, q0) → q0 = dist lat lng p0.latitude p0.longitude)
    (h : nearestStep dist lat lng acc x = some (p, q)) :
    q = dist lat lng p.latitude p.longitude := by
  cases acc with
  | none =>
    simp only [nearestStep, Option.some.injEq, Prod.mk.injEq] at h
    obtain ⟨h1, h2⟩ := h
    rw [← h1, ← h2]
  | some pr =>
    obtain ⟨b, q0⟩ := pr
    simp only [nearestStep] at h
    split at h
    · simp only [Option.some.injEq, Prod.mk.injEq] at h
      obtain ⟨h1, h2⟩ := h
      rw [← h1, ← h2]
    · simp only [Option.some.injEq, Prod.mk.injEq] at h
      obtain ⟨h1, h2⟩ := h
      rw [← h1, ← h2]
      exact hacc b q0 rfl

/-- The scan step never returns the empty accumulator. -/
theorem nearestStep_some (dist : ℚ → ℚ → ℚ → ℚ → ℚ) (lat lng : ℚ)
    (acc : Option (SafeArea × ℚ)) (x : SafeArea) :
    ∃ a m, nearestStep dist lat lng acc x = some (a, m) := by
  cases acc with
  | none => exact ⟨x, dist lat lng x.latitude x.longitude, rfl⟩
  | some pr =>
    obtain ⟨b, q0⟩ := pr
    by_cases hlt : dist lat lng x.latitude x.longitude < q0
    · exact ⟨x, dist lat lng x.latitude x.longitude, by
        simp only [nearestStep]
        rw [if_pos hlt]⟩
    · exact ⟨b, q0, by
        simp only [nearestStep]
        rw [if_neg hlt]⟩

/-- The scan step never increases the tracked minimum. -/
theorem nearestStep_le_acc (dist : ℚ → ℚ → ℚ → ℚ → ℚ) (lat lng : ℚ)
    (acc : Option (SafeArea × ℚ)) (x p : SafeArea) (q : ℚ) (p0 : SafeArea) (q0 : ℚ)
    (h : nearestStep dist lat lng acc x = some (p, q)) (hacc : acc = some (p0, q0)) :
    q ≤ q0 := by
  subst hacc
  simp only [nearestStep] at h
  split at h
  next hlt =>
    simp only [Option.some.injEq, Prod.mk.injEq] at h
    rw [← h.2]
    exact le_of_lt hlt
  next hge =>
    simp only [Option.some.injEq, Prod.mk.injEq] at h
    exact le_of_eq h.2.symm

/-- After stepping over an area, the tracked minimum is at most that area's
distance. -/
theorem nearestStep_le_x (dist : ℚ → ℚ → ℚ → ℚ → ℚ) (lat lng : ℚ)
    (acc : Option (SafeArea × ℚ)) (x p : SafeArea) (q : ℚ)
    (h : nearestStep dist lat lng acc x = some (p, q)) :
    q ≤ dist lat lng x.latitude x.longitude := by
  cases acc with
  | none =>
    simp only [nearestStep, Option.some.injEq, Prod.mk.injEq] at h
    exact le_of_eq h.2.symm
  | some pr =>
    obtain ⟨b, q0⟩ := pr
    simp only [nearestStep] at h
    split at h
    next hlt =>
      simp only [Option.some.injEq, Prod.mk.injEq] at h
      exact le_of_eq h.2.symm
    next hge =>
      simp only [Option.some.injEq, Prod.mk.injEq] at h
      rw [← h.2]
      exact le_of_not_lt hge

/-- The scan step keeps the accumulator or picks the scanned area. -/
theorem nearestStep_mem (dist : ℚ → ℚ → ℚ → ℚ → ℚ) (lat lng : ℚ)
    (acc : Option (SafeArea × ℚ)) (x p : SafeArea) (q : ℚ)
    (h : nearestStep dist lat lng acc x = some (p, q)) :
    acc = some (p, q) ∨ p = x := by
  cases acc with
  | none =>
    simp only [nearestStep, Option.some.injEq, Prod.mk.injEq] at h
    exact Or.inr h.1.symm
  | some pr =>
    obtain ⟨b, q0⟩ := pr
    simp only [nearestStep] at h
    split at h
    next hlt =>
      simp only [Option.some.injEq, Prod.mk.injEq] at h
      exact Or.inr h.1.symm
    next hge =>
      simp only [Option.some.injEq, Prod.mk.injEq] at h
      exact Or.inl (by rw [h.1, h.2])

/-- Full characterization of the fold behind `nearestArea`, for an
arbitrary accumulator. -/
theorem nearestArea_go (dist : ℚ → ℚ → ℚ → ℚ → ℚ) (lat lng : ℚ) (l : List SafeArea) :
    ∀ (acc : Option (SafeArea × ℚ)) (a : SafeArea) (m : ℚ),
      (∀ p q, acc = some (p, q) → q = dist lat lng p.latitude p.longitude) →
      List.foldl (nearestStep dist lat lng) acc l = some (a, m) →
      m = dist lat lng a.latitude a.longitude ∧
      (acc = some (a, m) ∨ a ∈ l) ∧
      (∀ p q, acc = some (p, q) → m ≤ q) ∧
      (∀ b ∈ l, m ≤ dist lat lng b.latitude b.longitude) := by
  induction l with
  | nil =>
    intro acc a m hacc h
    simp only [List.foldl_nil] at h
    refine ⟨hacc a m h, Or.inl h, ?_, ?_⟩
    · intro p q hpq
      rw [h] at hpq
      simp only [Option.some.injEq, Prod.mk.injEq] at hpq
      exact le_of_eq hpq.2
    · intro b hb
      simp at hb
  | cons x xs ih =>
    intro acc a m hacc h
    rw [List.foldl_cons] at h
    have hacc2 : ∀ p q, nearestStep dist lat lng acc x = some (p, q) →
        q = dist lat lng p.latitude p.longitude :=
      fun p q hpq => nearestStep_dist_inv dist lat lng acc x p q hacc hpq
    obtain ⟨hm, hmem, hle, hall⟩ := ih (nearestStep dist lat lng acc x) a m hacc2 h
    obtain ⟨a2, m2, hstep⟩ := nearestStep_some dist lat lng acc x
    have hm2 : m ≤ m2 := hle a2 m2 hstep
    refine ⟨hm, ?_, ?_, ?_⟩
    · rcases hmem with hm0 | hin
      · rcases nearestStep_mem dist lat lng acc x a m hm0 with hacc0 | hx
        · exact Or.inl hacc0
        · exact Or.inr (by rw [hx]; exact List.mem_cons_self x xs)
      · exact Or.inr (List.mem_cons_of_mem x hin)
    · intro p q hpq
      exact le_trans hm2 (nearestStep_le_acc dist lat lng acc x a2 m2 p q hstep hpq)
    · intro b hb
      rcases List.mem_cons.mp hb with hbx | hbin
      · rw [hbx]
        exact le_trans hm2 (nearestStep_le_x dist lat lng acc x a2 m2 hstep)
      · exact hall b hbin

/-- The chosen nearest area belongs to the scanned list, its distance is
the reported minimum, and no scanned area is closer. -/
theorem nearestArea_spec (dist : ℚ → ℚ → ℚ → ℚ → ℚ) (lat lng : ℚ)
    (l : List SafeArea) (a : SafeArea) (m : ℚ)
    (h : nearestArea dist lat lng l = some (a, m)) :
    a ∈ l ∧ m = dist lat lng a.latitude a.longitude ∧
      ∀ b ∈ l, m ≤ dist lat lng b.latitude b.longitude := by
  obtain ⟨hm, hmem, -, hall⟩ :=
    nearestArea_go dist lat lng l none a m (by intro p q hpq; simp at hpq) h
  rcases hmem with hnone | hin
  · exact absurd hnone (by simp)
  · exact ⟨hin, hm, hall⟩

/-! ### C8 -/

/-- C8: when an active safe area exists and the nearest one is within
30 km, the response carries exactly that nearest area, the rounded minimum
distance, the walking-time estimate `(distance / 5 km/h) × 60` minutes and
the bearing from the query point to the area (each rounded to the source's
display precision), the crowd fields stay empty, and the result does not
depend on the device-location samples at all — crowd analysis is never
consulted. -/
theorem C8_safe_area_priority (dist bearingF : ℚ → ℚ → ℚ → ℚ → ℚ) (avgDir : List ℚ → ℚ)
    (now lat lng : ℚ) (areas : List SafeArea) (locs : List DeviceLocation)
    (area : SafeArea) (m : ℚ)
    (h : nearestArea dist lat lng (areas.filter (fun a => a.is_active)) = some (area, m))
    (h30 : m ≤ 30) :
    get_evacuation_direction dist bearingF avgDir now lat lng areas locs =
      ⟨true, some area, some (pyRound m 2), some (pyRound ((m / 5) * 60) 1),
        some (pyRound (bearingF lat lng area.latitude area.longitude) 1), none, none⟩ ∧
    area ∈ areas.filter (fun a => a.is_active) ∧
    m = dist lat lng area.latitude area.longitude ∧
    (∀ b ∈ areas.filter (fun a => a.is_active),
      m ≤ dist lat lng b.latitude b.longitude) ∧
    (∀ locs2 : List DeviceLocation,
      get_evacuation_direction dist bearingF avgDir now lat lng areas locs2 =
        get_evacuation_direction dist bearingF avgDir now lat lng areas locs) := by
  obtain ⟨hmem, hdist, hmin⟩ :=
    nearestArea_spec dist lat lng (areas.filter (fun a => a.is_active)) area m h
  have hbranch : ∀ locs2 : List DeviceLocation,
      get_evacuation_direction dist bearingF avgDir now lat lng areas locs2 =
        ⟨true, some area, some (pyRound m 2), some (pyRound ((m / 5) * 60) 1),
          some (pyRound (bearingF lat lng area.latitude area.longitude) 1), none, none⟩ := by
    intro locs2
    unfold get_evacuation_direction
    rw [h]
    dsimp only
    rw [if_pos h30]
  refine ⟨hbranch locs, hmem, hdist, hmin, ?_⟩
  intro locs2
  rw [hbranch locs2, hbranch locs]

/-- A distance function reporting 7 km everywhere. -/
def dist7 : ℚ → ℚ → ℚ → ℚ → ℚ := fun _ _ _ _ => 7

/-- A bearing function reporting 45° everywhere. -/
def bearing45 : ℚ → ℚ → ℚ → ℚ → ℚ := fun _ _ _ _ => 45

/-- One active safe area. -/
def areaW : SafeArea := ⟨1, 11, 21, 2, none, true⟩

/-- Witness for C8: with one active area 7 km away the response embeds it
with the rounded distance, time estimate and bearing, independently of any
device samples. -/
theorem C8_safe_area_priority_witness :
    get_evacuation_direction dist7 bearing45 avg0 0 10 20 [areaW] c10samples =
      ⟨true, some areaW, some (pyRound 7 2), some (pyRound ((7 / 5) * 60) 1),
        some (pyRound (bearing45 10 20 areaW.latitude areaW.longitude) 1), none, none⟩ ∧
    get_evacuation_direction dist7 bearing45 avg0 0 10 20 [areaW] [] =
      get_evacuation_direction dist7 bearing45 avg0 0 10 20 [areaW] c10samples := by
  have happ := C8_safe_area_priority dist7 bearing45 avg0 0 10 20 [areaW] c10samples areaW 7
    rfl (by norm_num)
  exact ⟨happ.1, happ.2.2.2.2 []⟩

/-! ### C9 -/

/-- The throttle flag holds exactly when a recorded alert of the same
disaster, sent within the 3-minute window, lies within 2 km. -/
theorem throttledRecently_iff (dist : ℚ → ℚ → ℚ → ℚ → ℚ) (now lat lng : ℚ)
    (disaster_id : ℕ) (alerts : List EvacuationAlert) :
    throttledRecently dist now lat lng disaster_id alerts = true ↔
      ∃ al ∈ alerts, al.disaster_id = disaster_id ∧
        al.sent_at ≥ now - EVACUATION_ALERT_THROTTLE_MINUTES ∧
        dist lat lng al.area_latitude al.area_longitude ≤ 2 := by
  unfold throttledRecently
  simp only [List.any_eq_true, List.mem_filter, Bool.and_eq_true, decide_eq_true_eq,
    beq_iff_eq]
  constructor
  · rintro ⟨al, ⟨hmem, hsent, hdid⟩, hdist⟩
    exact ⟨al, hmem, hdid, hsent, hdist⟩
  · rintro ⟨al, hmem, hdid, hsent, hdist⟩
    exact ⟨al, ⟨hmem, hsent, hdid⟩, hdist⟩

/-- C9: the trigger endpoint is skipped with reason `throttled` exactly
when some recorded alert of the same disaster, sent within the last 3
minutes, lies within 2 km of the new trigger point (a recent nearby alert
of a different disaster does not throttle); and every skipped call — by
throttle or by missing crowd pattern — leaves the whole state unchanged: no
`EvacuationAlert` row and no notification. -/
theorem C9_throttle (dist : ℚ → ℚ → ℚ → ℚ → ℚ) (avgDir : List ℚ → ℚ)
    (now lat lng : ℚ) (disaster_id : ℕ) (st : EvacState) :
    ((trigger_crowd_evacuation_alert dist avgDir now lat lng disaster_id st).1.reason =
        some "throttled" ↔
      ∃ al ∈ st.alerts, al.disaster_id = disaster_id ∧
        al.sent_at ≥ now - EVACUATION_ALERT_THROTTLE_MINUTES ∧
        dist lat lng al.area_latitude al.area_longitude ≤ 2) ∧
    ((trigger_crowd_evacuation_alert dist avgDir now lat lng disaster_id st).1.triggered =
        false →
      (trigger_crowd_evacuation_alert dist avgDir now lat lng disaster_id st).2 = st) := by
  by_cases hth : throttledRecently dist now lat lng disaster_id st.alerts = true
  · have hres : trigger_crowd_evacuation_alert dist avgDir now lat lng disaster_id st =
        (⟨false, some "throttled", none, none, none⟩, st) := by
      unfold trigger_crowd_evacuation_alert
      rw [if_pos hth]
    rw [hres]
    constructor
    · simp only [true_iff]
      exact (throttledRecently_iff dist now lat lng disaster_id st.alerts).1 hth
    · intro _
      rfl
  · have hnex := fun hex =>
      hth ((throttledRecently_iff dist now lat lng disaster_id st.alerts).2 hex)
    cases hcrowd : analyze_crowd_movement avgDir
        (nearbyRecentLocations dist now lat lng st.locations) with
    | none =>
      have hres : trigger_crowd_evacuation_alert dist avgDir now lat lng disaster_id st =
          (⟨false, some "no_crowd_pattern", none, none, none⟩, st) := by
        unfold trigger_crowd_evacuation_alert
        rw [if_neg hth, hcrowd]
      rw [hres]
      constructor
      · constructor
        · intro hcontra
          exact absurd hcontra (by simp)
        · intro hex
          exact absurd hex hnex
      · intro _
        rfl
    | some c =>
      have hres : trigger_crowd_evacuation_alert dist avgDir now lat lng disaster_id st =
          (⟨true, none, some c.direction, some c.confidence,
              some (crowdTokens st.devices).length⟩,
            ⟨st.alerts ++ [⟨lat, lng, c.direction, disaster_id, now⟩], st.locations,
              st.devices,
              st.notifications_sent + (if (crowdTokens st.devices).isEmpty then 0 else 1)⟩) := by
        unfold trigger_crowd_evacuation_alert
        rw [if_neg hth, hcrowd]
      rw [hres]
      constructor
      · constructor
        · intro hcontra
          exact absurd hcontra (by simp)
        · intro hex
          exact absurd hex hnex
      · intro hfalse
        exact absurd hfalse (by simp)

/-- A state holding one evacuation alert for disaster 7, sent at minute 9
at the origin. -/
def stThrottle : EvacState :=
  ⟨[⟨0, 0, 90, 7, 9⟩], [], [], 0⟩

/-- Witness for C9: at minute 10 a new trigger at the origin for disaster 7
is throttled and changes nothing, while the same call for disaster 8 is not
throttled — the recent nearby alert belongs to a different disaster. -/
theorem C9_throttle_witness :
    (trigger_crowd_evacuation_alert dist0 avg0 10 0 0 7 stThrottle).1.reason =
      some "throttled" ∧
    (trigger_crowd_evacuation_alert dist0 avg0 10 0 0 7 stThrottle).2 = stThrottle ∧
    ¬ ((trigger_crowd_evacuation_alert dist0 avg0 10 0 0 8 stThrottle).1.reason =
      some "throttled") := by
  have h7 := C9_throttle dist0 avg0 10 0 0 7 stThrottle
  have h8 := C9_throttle dist0 avg0 10 0 0 8 stThrottle
  have hre : (trigger_crowd_evacuation_alert dist0 avg0 10 0 0 7 stThrottle).1.reason =
      some "throttled" := by
    refine h7.1.mpr ⟨⟨0, 0, 90, 7, 9⟩, ?_, rfl, ?_, ?_⟩
    · simp [stThrottle]
    · norm_num [EVACUATION_ALERT_THROTTLE_MINUTES]
    · norm_num [dist0]
  have htrig : (trigger_crowd_evacuation_alert dist0 avg0 10 0 0 7 stThrottle).1.triggered =
      false := by
    norm_num [trigger_crowd_evacuation_alert, throttledRecently, stThrottle, dist0,
      EVACUATION_ALERT_THROTTLE_MINUTES, List.filter, List.any]
  refine ⟨hre, h7.2 htrig, ?_⟩
  · intro hcontra
    obtain ⟨al, hmem, hdid, -, -⟩ := h8.1.mp hcontra
    have : al = ⟨0, 0, 90, 7, 9⟩ := by
      simpa [stThrottle] using hmem
    rw [this] at hdid
    exact absurd hdid (by norm_num)

end Samudra
